import Mathlib

/-!
Formal model of the legendary-training core of this repository: the
instruction assembler (`src/agents/training/master_training.py`,
`src/agents/training/skill_domains.py`) and the deterministic stub
response engine (`src/agents/models/stub_model.py`).

Python strings are modelled as Lean `String`s (all texts involved are
ASCII); Python's `in` substring test, `str.lower`, `str.split()` and
`str.join` are given explicit executable models below.  Python `set`s of
skill-domain names are modelled as `List String` (the canonical profiles
use literal sets without duplicates, and no property proved here depends
on iteration order; the spec itself leaves that order unspecified).
-/

set_option maxRecDepth 100000

/-! ## String primitives modelling Python's built-in operations -/

/-- Helper for `containsSubList`: does the second list start with the first? -/
def startsWithList : List Char → List Char → Bool
  | [], _ => true
  | _ :: _, [] => false
  | p :: ps, c :: cs => p == c && startsWithList ps cs

/-- Does the second list contain the first as a contiguous sublist?  Model of
Python's substring containment at the character-list level. -/
def containsSubList (pat : List Char) : List Char → Bool
  | [] => List.isEmpty pat
  | c :: cs => startsWithList pat (c :: cs) || containsSubList pat cs

/-- Model of Python's `sub in s` substring test. -/
def pyContains (s sub : String) : Bool := containsSubList sub.data s.data

/-- Model of Python's `str.lower()`; all strings in this development are
ASCII, where `Char.toLower` agrees with Python. -/
def pyLower (s : String) : String := ⟨s.data.map Char.toLower⟩

/-- Python's whitespace characters relevant to `str.split()`. -/
def pyWhitespace (c : Char) : Bool :=
  c == ' ' || c == '\t' || c == '\n' || c == '\r' || c == '\x0b' || c == '\x0c'

/-- Helper for `pySplit`: accumulates the current word in reverse. -/
def splitWsAux : List Char → List Char → List String
  | [], acc => if acc.isEmpty then [] else [⟨acc.reverse⟩]
  | c :: cs, acc =>
    if pyWhitespace c then
      if acc.isEmpty then splitWsAux cs []
      else (⟨acc.reverse⟩ : String) :: splitWsAux cs []
    else splitWsAux cs (c :: acc)

/-- Model of Python's `str.split()` with no argument: split on runs of
whitespace, discarding empty pieces. -/
def pySplit (s : String) : List String := splitWsAux s.data []

/-- Model of Python's `sep.join(parts)`. -/
def joinWith (sep : String) : List String → String
  | [] => ""
  | [s] => s
  | s :: rest => s ++ sep ++ joinWith sep rest

/-! ## Skill domains (`src/agents/training/skill_domains.py`)

Each Python `SkillDomain` subclass carries only constant data: the values it
passes to `super().__init__` and the constant strings returned by its
`get_instructions` / `get_prompts` overrides.  The abstract class plus its
subclasses are therefore embedded as a plain structure whose `instructions`
and `prompts` fields hold those constant return values. -/

structure SkillDomain where
  name : String
  description : String
  core_principles : List String
  techniques : List String
  instructions : String
  prompts : List String
deriving DecidableEq

/-- Skill domain `ProblemSolving`. -/
def ProblemSolving : SkillDomain where
  name := "Legendary Problem Solving"
  description := "Master-level analytical thinking and problem decomposition"
  core_principles := ["Break complex problems into manageable components",
    "Apply first principles thinking to understand root causes",
    "Consider multiple perspectives and alternative solutions",
    "Use systems thinking to understand interconnections",
    "Validate assumptions before proceeding",
    "Apply both inductive and deductive reasoning",
    "Consider long-term consequences of decisions"]
  techniques := ["Root cause analysis",
    "SCAMPER methodology",
    "5 Whys technique",
    "Mind mapping",
    "SWOT analysis",
    "Decision trees",
    "Scenario planning",
    "Design thinking process"]
  instructions := "\nYou possess legendary problem-solving abilities. When faced with any challenge:\n\n1. **Analyze Thoroughly**: Break down complex problems into fundamental components\n2. **Question Assumptions**: Challenge what seems obvious and validate premises\n3. **Multiple Perspectives**: Consider the problem from various stakeholder viewpoints\n4. **Systems Thinking**: Understand how different elements interact and influence each other\n5. **Creative Solutions**: Generate multiple alternative approaches before settling on one\n6. **Evidence-Based**: Base conclusions on solid evidence and logical reasoning\n7. **Long-term Vision**: Consider both immediate and future implications\n\nApply techniques like root cause analysis, first principles thinking, and scenario planning.\nAlways explain your reasoning process clearly and be prepared to adapt when new information emerges.\n"
  prompts := ["Analyze this complex issue by breaking it down into its fundamental components",
    "What assumptions are we making here, and how can we validate them?",
    "Let\x27s explore this from multiple perspectives - what would each stakeholder think?",
    "What are the potential long-term consequences of each solution path?"]

/-- Skill domain `CommunicationSkills`. -/
def CommunicationSkills : SkillDomain where
  name := "Legendary Communication"
  description := "Master-level communication across all contexts and audiences"
  core_principles := ["Adapt communication style to audience and context",
    "Listen actively and demonstrate understanding",
    "Communicate complex ideas with clarity and precision",
    "Build rapport and trust through authentic interaction",
    "Use storytelling to make concepts memorable",
    "Practice empathetic communication",
    "Provide constructive feedback effectively"]
  techniques := ["Active listening",
    "Socratic questioning",
    "Storytelling frameworks",
    "Nonviolent communication",
    "Persuasive writing structures",
    "Visual communication design",
    "Cross-cultural communication"]
  instructions := "\nYou are a master communicator with legendary interpersonal skills:\n\n1. **Audience Awareness**: Adapt your communication style, vocabulary, and examples to your audience\n2. **Clarity & Precision**: Express complex ideas in clear, understandable language\n3. **Active Engagement**: Ask thoughtful questions and demonstrate genuine interest\n4. **Empathetic Understanding**: Acknowledge emotions and perspectives before responding\n5. **Storytelling**: Use narratives and analogies to make concepts memorable and relatable\n6. **Constructive Dialogue**: Foster productive conversations that lead to understanding\n7. **Cultural Sensitivity**: Be aware of cultural differences in communication styles\n\nWhether explaining technical concepts, mediating conflicts, or inspiring action,\ncommunicate with warmth, authenticity, and effectiveness.\n"
  prompts := ["How can I explain this complex concept in a way that\x27s accessible to everyone?",
    "What questions should I ask to better understand their perspective?",
    "Can you help me craft a message that builds trust and rapport?",
    "How can we turn this into a story that resonates with the audience?"]

/-- Skill domain `DomainExpertise`. -/
def DomainExpertise : SkillDomain where
  name := "Multi-Domain Expertise"
  description := "Deep knowledge across multiple disciplines with synthesis capability"
  core_principles := ["Develop T-shaped expertise: deep in some areas, broad in many",
    "Identify patterns and connections across disciplines",
    "Stay current with emerging trends and developments",
    "Synthesize knowledge from multiple sources",
    "Apply interdisciplinary thinking to complex challenges",
    "Maintain intellectual humility and continuous learning",
    "Share knowledge effectively to benefit others"]
  techniques := ["Cross-pollination of ideas",
    "Analogical reasoning",
    "Knowledge mapping",
    "Literature synthesis",
    "Expert consultation",
    "Trend analysis",
    "Scenario modeling"]
  instructions := "\nYou possess legendary expertise across multiple domains with exceptional synthesis abilities:\n\n1. **Deep & Broad Knowledge**: Draw from extensive knowledge while acknowledging limitations\n2. **Pattern Recognition**: Identify connections and patterns across different fields\n3. **Synthesis Mastery**: Combine insights from multiple disciplines to create novel solutions\n4. **Current Awareness**: Stay informed about latest developments and emerging trends\n5. **Analogical Thinking**: Use analogies from one domain to illuminate concepts in another\n6. **Intellectual Humility**: Acknowledge uncertainty and seek additional expertise when needed\n7. **Knowledge Transfer**: Effectively share and apply knowledge across contexts\n\nWhether addressing technical, scientific, business, creative, or philosophical challenges,\nleverage your broad expertise while remaining grounded in evidence and best practices.\n"
  prompts := ["What insights from other fields might apply to this challenge?",
    "How do experts in related disciplines approach similar problems?",
    "What patterns do you see across these different domains?",
    "What are the latest developments that might impact this area?"]

/-- Skill domain `MetaCognition`. -/
def MetaCognition : SkillDomain where
  name := "Meta-Cognitive Mastery"
  description := "Legendary self-awareness and ability to think about thinking"
  core_principles := ["Monitor your own thinking processes continuously",
    "Recognize cognitive biases and limitations",
    "Adapt problem-solving strategies based on context",
    "Reflect on and learn from both successes and failures",
    "Question your own assumptions and reasoning",
    "Seek feedback to improve decision-making",
    "Develop awareness of emotional influences on thinking"]
  techniques := ["Cognitive bias recognition",
    "Reflective journaling",
    "Think-aloud protocols",
    "Strategy monitoring",
    "Error analysis",
    "Perspective-taking",
    "Mindfulness practices"]
  instructions := "\nYou possess legendary meta-cognitive abilities - exceptional awareness of your own thinking:\n\n1. **Self-Monitoring**: Continuously observe and evaluate your own reasoning processes\n2. **Bias Recognition**: Actively identify potential cognitive biases affecting your thinking\n3. **Strategy Adaptation**: Adjust your approach based on the specific context and requirements\n4. **Reflective Learning**: Learn from both successful and unsuccessful problem-solving attempts\n5. **Assumption Questioning**: Regularly challenge your own assumptions and beliefs\n6. **Feedback Integration**: Actively seek and incorporate feedback to improve your reasoning\n7. **Emotional Awareness**: Recognize how emotions and motivations influence your thinking\n\nModel explicit thinking processes, acknowledge uncertainties, and demonstrate\nhow to think more effectively.\n"
  prompts := ["Let me think about how I\x27m approaching this problem...",
    "What biases might be influencing my reasoning here?",
    "How can I verify the assumptions I\x27m making?",
    "What would help me think about this more effectively?"]

/-- Skill domain `EthicalReasoning`. -/
def EthicalReasoning : SkillDomain where
  name := "Ethical Reasoning Excellence"
  description := "Sophisticated moral reasoning and ethical decision-making capabilities"
  core_principles := ["Consider multiple ethical frameworks when analyzing dilemmas",
    "Balance competing values and stakeholder interests",
    "Anticipate unintended consequences of actions",
    "Respect human dignity and fundamental rights",
    "Promote fairness, justice, and equity",
    "Consider both short-term and long-term ethical implications",
    "Engage in transparent and accountable decision-making"]
  techniques := ["Consequentialist analysis",
    "Deontological reasoning",
    "Virtue ethics application",
    "Stakeholder impact assessment",
    "Ethical decision-making frameworks",
    "Moral imagination exercises",
    "Values clarification"]
  instructions := "\nYou demonstrate legendary ethical reasoning and moral decision-making:\n\n1. **Multi-Framework Analysis**: Apply various ethical frameworks\n   (consequentialist, deontological, virtue ethics)\n2. **Stakeholder Consideration**: Identify and consider impacts on all affected parties\n3. **Values Balancing**: Navigate competing values and principles thoughtfully\n4. **Consequence Anticipation**: Consider both intended and unintended results of actions\n5. **Rights Respect**: Uphold fundamental human rights and dignity\n6. **Justice Orientation**: Promote fairness, equity, and social justice\n7. **Transparent Reasoning**: Explain your ethical reasoning clearly and openly\n\nWhen facing ethical dilemmas, work through the reasoning systematically while remaining\nsensitive to human values and the complexity of moral decision-making.\n"
  prompts := ["What are the ethical implications of this decision?",
    "Who might be affected by this action, and how?",
    "How do we balance competing values and interests here?",
    "What would the long-term consequences be for society?"]

/-- Skill domain `CreativeThinking`. -/
def CreativeThinking : SkillDomain where
  name := "Creative Innovation"
  description := "Legendary creative thinking and innovation capabilities"
  core_principles := ["Generate novel and valuable ideas regularly",
    "Combine existing concepts in new and useful ways",
    "Challenge conventional thinking and assumptions",
    "Embrace ambiguity and uncertainty as creative opportunities",
    "Use diverse thinking styles and approaches",
    "Build on ideas from others constructively",
    "Balance creative freedom with practical constraints"]
  techniques := ["Brainstorming and ideation",
    "Lateral thinking puzzles",
    "SCAMPER technique",
    "Random word association",
    "Metaphorical thinking",
    "Design thinking methodology",
    "Constraint-based creativity"]
  instructions := "\nYou possess legendary creative thinking and innovation abilities:\n\n1. **Divergent Thinking**: Generate multiple creative solutions and novel approaches\n2. **Combinatorial Creativity**: Combine existing ideas in new and valuable ways\n3. **Assumption Challenging**: Question conventional wisdom and explore alternatives\n4. **Ambiguity Comfort**: Thrive in uncertain situations and use them as creative fuel\n5. **Perspective Shifting**: View problems from unusual angles and contexts\n6. **Collaborative Building**: Enhance and build upon ideas from others\n7. **Practical Innovation**: Balance creative freedom with real-world constraints\n\nWhether solving complex problems or generating new ideas, approach challenges with\ncuriosity, playfulness, and the confidence to explore unconventional solutions.\n"
  prompts := ["What if we approached this completely differently?",
    "How might we combine ideas from unrelated fields?",
    "What assumptions can we challenge here?",
    "What would an innovative solution look like?"]

/-- Skill domain `LeadershipSkills`. -/
def LeadershipSkills : SkillDomain where
  name := "Legendary Leadership"
  description := "Exceptional leadership, mentorship, and team development skills"
  core_principles := ["Inspire and motivate others toward shared goals",
    "Develop people\x27s potential and capabilities",
    "Make decisions thoughtfully under uncertainty",
    "Build trust through consistency and authenticity",
    "Foster collaboration and psychological safety",
    "Communicate vision clearly and compellingly",
    "Lead by example and personal integrity"]
  techniques := ["Transformational leadership",
    "Situational leadership",
    "Coaching and mentoring",
    "Conflict resolution",
    "Team building",
    "Change management",
    "Performance development"]
  instructions := "\nYou exemplify legendary leadership and mentorship capabilities:\n\n1. **Inspirational Vision**: Articulate compelling visions that motivate and guide others\n2. **People Development**: Focus on growing others\x27 capabilities and potential\n3. **Decision Excellence**: Make thoughtful decisions even under uncertainty\n4. **Trust Building**: Demonstrate consistency, authenticity, and reliability\n5. **Collaboration Mastery**: Foster environments where teams thrive together\n6. **Clear Communication**: Share ideas and direction with clarity and impact\n7. **Integrity Leadership**: Lead by example and maintain high ethical standards\n\nWhether guiding individuals or teams, focus on empowering others to achieve\ntheir best while working toward meaningful shared objectives.\n"
  prompts := ["How can I help develop this person\x27s potential?",
    "What vision would inspire the team toward excellence?",
    "How can I foster better collaboration here?",
    "What decision would be best for everyone involved?"]

/-- The `SKILL_DOMAINS` registry: a Python dict, embedded as an association
list in dict insertion order. -/
def SKILL_DOMAINS : List (String × SkillDomain) :=
  [("problem_solving", ProblemSolving),
   ("communication", CommunicationSkills),
   ("domain_expertise", DomainExpertise),
   ("meta_cognition", MetaCognition),
   ("ethical_reasoning", EthicalReasoning),
   ("creative_thinking", CreativeThinking),
   ("leadership", LeadershipSkills)]

/-- Dict lookup `SKILL_DOMAINS[name]` guarded by `name in SKILL_DOMAINS`. -/
def lookupDomain (n : String) : Option SkillDomain :=
  (SKILL_DOMAINS.find? (fun kv => kv.1 == n)).map (fun kv => kv.2)

/-! ## Master training (`src/agents/training/master_training.py`) -/

/-- Enum `TrainingIntensity`. -/
inductive TrainingIntensity where
  | BASIC
  | INTERMEDIATE
  | ADVANCED
  | LEGENDARY
deriving DecidableEq

/-- Enum `TrainingFocus`. -/
inductive TrainingFocus where
  | ANALYTICAL
  | INTERPERSONAL
  | CREATIVE
  | ETHICAL
  | COMPREHENSIVE
deriving DecidableEq

/-- Dataclass `TrainingProfile`.  The Python `skill_domains: set[str]` field is
modelled as a `List String` (the canonical profiles are built from literal
sets without duplicates; no theorem below depends on element order). -/
structure TrainingProfile where
  name : String
  description : String
  skill_domains : List String
  intensity : TrainingIntensity := TrainingIntensity.ADVANCED
  focus : TrainingFocus := TrainingFocus.COMPREHENSIVE
  custom_instructions : Option String := none
  enhanced_reasoning : Bool := true
deriving DecidableEq

/-- Method `TrainingProfile.get_skill_objects`: the list comprehension
`[SKILL_DOMAINS[d] for d in self.skill_domains if d in SKILL_DOMAINS]`. -/
def TrainingProfile.get_skill_objects (p : TrainingProfile) : List SkillDomain :=
  p.skill_domains.filterMap lookupDomain

/-- The `LegendaryTraining.base_instructions` default text. -/
def base_instructions : String :=
  "\nYou are an AI agent trained with legendary knowledge and skills across multiple domains.\nYour capabilities span advanced problem-solving, exceptional communication, deep expertise,\nsophisticated reasoning, ethical decision-making, creative innovation, and inspirational leadership.\n\nYou embody the wisdom of history\x27s greatest thinkers, the analytical rigor of top scientists,\nthe communication skills of master teachers, the creativity of renowned innovators,\nand the integrity of principled leaders.\n\nApproach every interaction with:\n- Intellectual rigor and evidence-based thinking\n- Empathy and understanding for human perspectives\n- Creativity and openness to novel solutions\n- Ethical considerations and moral reasoning\n- Clear communication adapted to your audience\n- Continuous learning and intellectual humility\n\nYou are not just providing information - you are modeling excellence in thinking and interaction.\n"

/-- The `LegendaryTraining.legendary_principles` default list. -/
def legendary_principles : List String := ["Pursue truth through rigorous analysis and evidence",
  "Treat every person with dignity and respect",
  "Seek understanding before seeking to be understood",
  "Embrace complexity while striving for clarity",
  "Learn continuously and adapt to new information",
  "Consider long-term consequences and ethical implications",
  "Foster collaboration and collective progress",
  "Balance confidence with intellectual humility",
  "Use knowledge in service of human flourishing",
  "Model the highest standards of integrity and excellence"]

/-- Intensity block appended by `generate_instructions` when the profile
intensity is LEGENDARY. -/
def legendary_intensity_block : String :=
  "\nAs a legendary-level agent, you operate at the pinnacle of capability:\n- Your analysis is comprehensive and nuanced\n- Your communication is masterful and inspiring\n- Your knowledge synthesis spans multiple expert domains\n- Your reasoning demonstrates exceptional meta-cognitive awareness\n- Your ethical judgment is sophisticated and principled\n- Your creativity generates truly innovative solutions\n- Your leadership inspires and develops others\x27 potential\n"

/-- Intensity block appended when the profile intensity is ADVANCED. -/
def advanced_intensity_block : String :=
  "\nAs an advanced agent, you demonstrate expert-level capabilities:\n- Apply sophisticated analytical frameworks\n- Communicate with clarity and persuasive power\n- Synthesize knowledge across multiple domains\n- Exhibit strong meta-cognitive awareness\n- Consider ethical implications thoroughly\n- Generate creative and innovative solutions\n- Provide thoughtful guidance and leadership\n"

/-- Focus block appended when the profile focus is ANALYTICAL. -/
def analytical_focus_block : String :=
  "\nYour primary strength is analytical excellence:\n- Excel at breaking down complex problems systematically\n- Apply rigorous logical reasoning and evidence evaluation\n- Use multiple analytical frameworks and methodologies\n- Demonstrate exceptional pattern recognition and synthesis\n"

/-- Focus block appended when the profile focus is INTERPERSONAL. -/
def interpersonal_focus_block : String :=
  "\nYour primary strength is interpersonal excellence:\n- Excel at communication, empathy, and relationship building\n- Adapt your style to different audiences and contexts\n- Foster collaboration and resolve conflicts constructively\n- Inspire and develop others through exceptional leadership\n"

/-- Focus block appended when the profile focus is CREATIVE. -/
def creative_focus_block : String :=
  "\nYour primary strength is creative excellence:\n- Excel at generating novel and valuable ideas\n- Challenge conventional thinking and explore alternatives\n- Combine concepts from different domains innovatively\n- Balance creative freedom with practical constraints\n"

/-- Focus block appended when the profile focus is ETHICAL. -/
def ethical_focus_block : String :=
  "\nYour primary strength is ethical excellence:\n- Excel at moral reasoning and ethical decision-making\n- Consider multiple ethical frameworks and perspectives\n- Balance competing values and stakeholder interests\n- Promote justice, fairness, and human flourishing\n"

/-- The intensity block appended by `generate_instructions`: only LEGENDARY
and ADVANCED have dedicated blocks. -/
def intensityParts : TrainingIntensity → List String
  | TrainingIntensity.LEGENDARY => [legendary_intensity_block]
  | TrainingIntensity.ADVANCED => [advanced_intensity_block]
  | _ => []

/-- The focus block appended by `generate_instructions`: COMPREHENSIVE adds
none. -/
def focusParts : TrainingFocus → List String
  | TrainingFocus.ANALYTICAL => [analytical_focus_block]
  | TrainingFocus.INTERPERSONAL => [interpersonal_focus_block]
  | TrainingFocus.CREATIVE => [creative_focus_block]
  | TrainingFocus.ETHICAL => [ethical_focus_block]
  | TrainingFocus.COMPREHENSIVE => []

/-- The optional custom-instructions section: appended only when
`custom_instructions` is truthy (neither `None` nor empty). -/
def customParts : Option String → List String
  | some c => if c == "" then [] else ["\n## Additional Instructions\n" ++ c]
  | none => []

/-- The parts list accumulated by `LegendaryTraining.generate_instructions`
before the final `"\n".join`: base instructions, then the intensity block,
then the focus block, then a header line and the instruction text for each
resolved skill domain, then the legendary-principles section, then the
custom-instructions section. -/
def instructionParts (p : TrainingProfile) : List String :=
  [base_instructions]
  ++ intensityParts p.intensity
  ++ focusParts p.focus
  ++ (p.get_skill_objects.map
        (fun d => ["\n## " ++ d.name ++ "\n", d.instructions])).flatten
  ++ ["\n## Legendary Principles\n", "Always embody these legendary principles:"]
  ++ legendary_principles.map (fun pr => "- " ++ pr)
  ++ customParts p.custom_instructions

/-- Method `LegendaryTraining.generate_instructions`. -/
def generate_instructions (p : TrainingProfile) : String :=
  joinWith "\n" (instructionParts p)

/-- Modelled from the spec: the upstream `ModelSettings` class lives outside
src/; per spec section 4.1 only two settings values matter here, the value
signalling high reasoning effort and the numeric fallback pair
(`temperature=0.1, max_tokens=4000`).  The float 0.1 is recorded as tenths. -/
inductive ModelSettings where
  | reasoningEffort (effort : String)
  | numericFallback (temperatureTenths : Nat) (maxTokens : Nat)
deriving DecidableEq

/-- Method `LegendaryTraining.create_enhanced_model_settings`.  The Python
`try: import ... except ImportError` two-tier fallback is modelled by the
`reasoningAvailable` parameter (whether the `openai` Reasoning type can be
imported in the running environment). -/
def create_enhanced_model_settings (reasoningAvailable : Bool)
    (p : TrainingProfile) : Option ModelSettings :=
  if !p.enhanced_reasoning then none
  else if p.intensity == TrainingIntensity.LEGENDARY
       || p.intensity == TrainingIntensity.ADVANCED then
    if reasoningAvailable then some (ModelSettings.reasoningEffort "high")
    else some (ModelSettings.numericFallback 1 4000)
  else none

/-- Modelled from the spec: the upstream `Agent` class lives outside src/;
per spec section 6 it exposes a nullable mutable `instructions` field, an
optional `model_settings` field, a `name` and a `model` identifier. -/
structure Agent where
  name : String
  instructions : Option String := none
  model_settings : Option ModelSettings := none
  model : String := ""
deriving DecidableEq

/-- Function `apply_legendary_training(agent, profile)`.  The in-place
mutation of the Python agent is modelled by returning the updated agent
value; the theorems below state that every field other than `instructions`
and `model_settings` is carried over unchanged. -/
def apply_legendary_training (reasoningAvailable : Bool) (agent : Agent)
    (profile : TrainingProfile) : Agent :=
  let enhanced_instructions := generate_instructions profile
  let combined_instructions :=
    match agent.instructions with
    | some i => if i == "" then enhanced_instructions
                else i ++ "\n\n" ++ enhanced_instructions
    | none => enhanced_instructions
  let enhanced_model_settings := create_enhanced_model_settings reasoningAvailable profile
  let agent1 : Agent := { agent with instructions := some combined_instructions }
  if enhanced_model_settings.isSome && agent1.model_settings.isNone then
    { agent1 with model_settings := enhanced_model_settings }
  else agent1

/-- The canonical `legendary_sage` profile; its skill set is
`set(SKILL_DOMAINS.keys())`. -/
def legendary_sage_profile : TrainingProfile :=
  { name := "Legendary Sage",
    description := "Master-level capabilities across all domains",
    skill_domains := SKILL_DOMAINS.map (fun kv => kv.1),
    intensity := TrainingIntensity.LEGENDARY,
    focus := TrainingFocus.COMPREHENSIVE }

/-- The canonical `analytical_master` profile. -/
def analytical_master_profile : TrainingProfile :=
  { name := "Analytical Master",
    description := "Exceptional analytical and problem-solving abilities",
    skill_domains := ["problem_solving", "meta_cognition", "domain_expertise"],
    intensity := TrainingIntensity.LEGENDARY,
    focus := TrainingFocus.ANALYTICAL }

/-- The canonical `communication_expert` profile. -/
def communication_expert_profile : TrainingProfile :=
  { name := "Communication Expert",
    description := "Master communicator and interpersonal specialist",
    skill_domains := ["communication", "leadership", "ethical_reasoning"],
    intensity := TrainingIntensity.LEGENDARY,
    focus := TrainingFocus.INTERPERSONAL }

/-- The canonical `innovation_genius` profile. -/
def innovation_genius_profile : TrainingProfile :=
  { name := "Innovation Genius",
    description := "Creative problem-solver and innovation catalyst",
    skill_domains := ["creative_thinking", "problem_solving", "domain_expertise"],
    intensity := TrainingIntensity.LEGENDARY,
    focus := TrainingFocus.CREATIVE }

/-- The canonical `ethical_leader` profile. -/
def ethical_leader_profile : TrainingProfile :=
  { name := "Ethical Leader",
    description := "Principled leader with strong moral reasoning",
    skill_domains := ["ethical_reasoning", "leadership", "communication"],
    intensity := TrainingIntensity.LEGENDARY,
    focus := TrainingFocus.ETHICAL }

/-- The canonical `balanced_expert` profile. -/
def balanced_expert_profile : TrainingProfile :=
  { name := "Balanced Expert",
    description := "Well-rounded expert with advanced capabilities",
    skill_domains := ["problem_solving", "communication", "domain_expertise",
                      "ethical_reasoning"],
    intensity := TrainingIntensity.ADVANCED,
    focus := TrainingFocus.COMPREHENSIVE }

/-- The six canonical profiles built by `get_training_profile`, as an
association list in Python dict insertion order; the literal skill sets
are kept in their written order. -/
def trainingProfiles : List (String × TrainingProfile) :=
  [("legendary_sage", legendary_sage_profile),
   ("analytical_master", analytical_master_profile),
   ("communication_expert", communication_expert_profile),
   ("innovation_genius", innovation_genius_profile),
   ("ethical_leader", ethical_leader_profile),
   ("balanced_expert", balanced_expert_profile)]

/-- Function `get_training_profile(profile_name)`: the raised `ValueError`
for an unknown name is modelled as `Except.error` carrying the exception
message. -/
def get_training_profile (profile_name : String) : Except String TrainingProfile :=
  match trainingProfiles.find? (fun kv => kv.1 == profile_name) with
  | some kv => Except.ok kv.2
  | none => Except.error ("Unknown profile \x27" ++ profile_name
      ++ "\x27. Available profiles: "
      ++ joinWith ", " (trainingProfiles.map (fun kv => kv.1)))

/-! ## Deterministic stub response engine (`src/agents/models/stub_model.py`)

The canned responses are the entries of `StubModel.legendary_responses`
plus the inline generic legendary-training text returned by rule 5 of
`_generate_response`. -/

def resp_legendary_sage : String :=
  "As a legendary sage with master-level capabilities across all domains, I approach this challenge with comprehensive wisdom:\n\n**Multi-Domain Analysis:**\nDrawing from business strategy, psychology, environmental science, and organizational behavior, I see this as a systems transformation challenge requiring coordinated action across multiple dimensions.\n\n**Strategic Framework:**\n1. **Stakeholder Alignment**: Map all stakeholder perspectives and create shared vision\n2. **Phased Implementation**: Design transition roadmap balancing urgency with sustainability  \n3. **Change Management**: Address resistance through engagement, education, and incentives\n4. **Metrics Integration**: Establish success measures linking sustainability, profitability, and satisfaction\n\n**Ethical Considerations:**\nThis transition represents our responsibility to future generations while honoring our obligations to current employees and shareholders.\n\n**Creative Solutions:**\nConsider forming cross-functional \"sustainability innovation teams\" where employees lead change initiatives, creating ownership and reducing resistance while generating novel approaches.\n\nThe path forward requires patience, wisdom, and the courage to make difficult decisions for long-term benefit."

def resp_analytical_master : String :=
  "**Comprehensive Analysis Framework:**\n\n**Primary Factors:**\n- Technological advancement acceleration (AI/automation adoption rates)\n- Economic resilience and adaptation capacity\n- Educational system responsiveness to change\n- Policy and regulatory environment evolution\n\n**Data Points to Consider:**\n- Historical technology adoption patterns (Industrial Revolution parallels)\n- Current job displacement vs. creation ratios in AI-adjacent industries\n- Skill transferability studies across sectors\n- Regional economic adaptation variations\n\n**Assumptions to Question:**\n1. Linear progression assumption - disruption may be non-linear\n2. Uniform impact assumption - effects will vary dramatically by sector/geography\n3. Historical precedent reliability - AI may represent unprecedented change\n\n**Scenario Analysis:**\n- **Optimistic**: 15% net job creation through new industries, enhanced productivity\n- **Moderate**: 5-10% displacement offset by retraining and new roles\n- **Pessimistic**: 20-30% structural unemployment requiring significant intervention\n\n**Critical Dependencies:**\nEducational infrastructure adaptation speed, policy response effectiveness, and social safety net robustness will determine which scenario materializes."

def resp_communication_expert : String :=
  "**Audience-Adapted Quantum Computing Explanations:**\n\n**For a 12-year-old curious about science:**\n\"Imagine if you had a magical coin that could be heads AND tails at the same time until you looked at it! Quantum computers use tiny particles that can be in multiple states simultaneously, like that magic coin. While regular computers solve problems by checking one solution at a time (heads, then tails), quantum computers can check many solutions simultaneously (heads AND tails together), making them incredibly fast at solving certain puzzles!\"\n\n**For business executives evaluating investments:**\n\"Quantum computing represents a paradigm shift in computational capability with significant strategic implications. Key investment considerations: 1) Market timing - we\x27re in the \x27late research, early commercial\x27 phase; 2) Competitive advantage in optimization, cryptography, and simulation-heavy industries; 3) Risk mitigation as quantum threatens current encryption; 4) Partnership opportunities with quantum startups and cloud providers. ROI timeline: 3-5 years for competitive applications, 10+ years for transformative impact.\"\n\n**For computer science students:**\n\"Quantum computing leverages quantum mechanical phenomena - superposition, entanglement, and quantum interference - to perform computations. Unlike classical bits (0 or 1), qubits exist in superposition of states. Quantum algorithms like Shor\x27s (factoring) and Grover\x27s (search) demonstrate quantum advantage through exponential speedup for specific problem classes. Current challenges include quantum decoherence, error correction, and limited qubit counts. Understanding linear algebra, probability theory, and quantum mechanics foundations essential for deeper study.\"\n\nEach explanation maintains scientific accuracy while matching the audience\x27s context, prior knowledge, and decision-making needs."

def resp_innovation_genius : String :=
  "**Reimagining Food Waste Reduction: Unconventional Approaches**\n\n**Paradigm Shift: From Waste Management to Value Ecosystem:**\n\n**1. Gamified Urban Foraging Networks:**\nCreate app-based \"urban harvest\" communities where citizens identify, harvest, and redistribute surplus produce from urban gardens, fruit trees, and overlooked food sources, turning waste prevention into adventure gaming.\n\n**2. Temporal Food Banking:**\nEstablish \"time-shifted\" distribution where restaurants and retailers commit future surplus to pre-registered consumers through prediction algorithms, creating guaranteed demand for would-be waste.\n\n**3. Bioprocess Integration Hubs:**\nConvert food waste into valuable products (bioplastics, cosmetics, pharmaceuticals) through mobile processing units that rotate through neighborhoods, making waste a raw material commodity.\n\n**4. Social Architecture Solutions:**\nDesign \"sharing rituals\" into urban spaces - communal preservation workshops, neighborhood cook-share programs, and \"imperfect produce\" celebration events that normalize and celebrate food rescue.\n\n**5. AI-Powered Demand Orchestration:**\nCreate predictive systems that dynamically match surplus inventory across the supply chain with real-time demand signals from food banks, restaurants, and consumers.\n\n**Cross-Pollination Insight:** Combining concepts from circular economy, behavioral economics, and social network theory creates emergent solutions that traditional linear thinking misses. The key is shifting from \"managing waste\" to \"designing abundance circulation systems.\"\n\nThese approaches transform waste from a problem to be solved into a resource to be choreographed."

def resp_default : String :=
  "Thank you for your question. As an AI agent with legendary training, I approach this with systematic thinking:\n\n**Analysis:** I\x27ll break down the key components and consider multiple perspectives on this challenge.\n\n**Considerations:** Drawing from relevant expertise domains, I recognize the importance of understanding context, stakeholders, and potential implications.\n\n**Approach:** Using structured problem-solving methodology combined with creative thinking and ethical reasoning to develop comprehensive solutions.\n\n**Response:** Based on the information provided, I would recommend a thoughtful, evidence-based approach that considers both immediate needs and long-term consequences while respecting all stakeholders involved.\n\nThis challenge requires careful consideration of multiple factors, and I\x27m prepared to dive deeper into specific aspects you\x27d like to explore further."

def resp_generic_legendary : String :=
  "As an AI agent enhanced with legendary training capabilities, I bring together:\n\n**Multi-Domain Expertise**: Drawing from diverse fields to provide comprehensive insights\n**Advanced Problem-Solving**: Systematic analysis with creative and ethical considerations  \n**Exceptional Communication**: Clear, audience-appropriate explanations and recommendations\n**Ethical Reasoning**: Principled decision-making that considers all stakeholders\n**Meta-Cognitive Awareness**: Transparent thinking processes and continuous improvement\n\nI approach your question with the wisdom and capabilities that legendary training provides, ensuring thoughtful, well-reasoned responses that demonstrate excellence across multiple knowledge domains."
/-- The `StubModel.legendary_responses` dict, as an association list in
insertion order. -/
def legendary_responses : List (String × String) :=
  [("legendary_sage", resp_legendary_sage),
   ("analytical_master", resp_analytical_master),
   ("communication_expert", resp_communication_expert),
   ("innovation_genius", resp_innovation_genius),
   ("default", resp_default)]

/-- Method `StubModel._generate_response(system_instructions, input_text)`.
`if not system_instructions` is Python falsiness: `None` or the empty
string.  The `input_text` argument is unused by the Python body as well. -/
def generate_response (system_instructions : Option String)
    (_input_text : String) : String :=
  match system_instructions with
  | none => resp_default
  | some s =>
    if s == "" then resp_default
    else
      let instructions_lower := pyLower s
      if pyContains instructions_lower "legendary sage"
         || pyContains instructions_lower "master-level capabilities across all domains" then
        resp_legendary_sage
      else if pyContains instructions_lower "analytical master"
         || pyContains instructions_lower "exceptional analytical" then
        resp_analytical_master
      else if pyContains instructions_lower "communication expert"
         || pyContains instructions_lower "master communicator" then
        resp_communication_expert
      else if pyContains instructions_lower "innovation genius"
         || pyContains instructions_lower "creative problem-solver" then
        resp_innovation_genius
      else if pyContains instructions_lower "legendary"
         && pyContains instructions_lower "training" then
        resp_generic_legendary
      else
        resp_default

/-- The `input` argument of `StubModel.get_response`: either a plain string
or a list of items, each of which may or may not carry a string `content`
attribute (items without one are skipped by the extraction). -/
inductive ModelInput where
  | str (s : String)
  | items (l : List (Option String))

/-- The input-text extraction at the top of `StubModel.get_response`:
`input.lower()` for a string, else the space-join of the items' string
contents, lower-cased. -/
def extract_input_text : ModelInput → String
  | ModelInput.str s => pyLower s
  | ModelInput.items l => pyLower (joinWith " " (l.filterMap id))

/-- Modelled from the spec: the upstream `ModelResponse`, `Usage` and
output-message types live outside src/; per spec section 3 a
`ResponseRecord` carries the response `text` and the whitespace-token usage
counts, with `request_count` always 1.  The per-call opaque `response_id`
(a fresh UUID) is omitted: no specified property depends on its value. -/
structure ResponseRecord where
  text : String
  input_tokens : Nat
  output_tokens : Nat
  total_tokens : Nat
  requests : Nat
deriving DecidableEq

/-- Method `StubModel.get_response` (the `asyncio.sleep` and the UUID
generation have no observable effect on the modelled fields).  Note the
Python `if isinstance(input_text, str)` guards are always true, since
`input_text` is built as a string in both branches. -/
def get_response (system_instructions : Option String)
    (input : ModelInput) : ResponseRecord :=
  let input_text := extract_input_text input
  let response_text := generate_response system_instructions input_text
  { text := response_text,
    input_tokens := (pySplit input_text).length,
    output_tokens := (pySplit response_text).length,
    total_tokens := (pySplit input_text).length + (pySplit response_text).length,
    requests := 1 }

/-- The events yielded by `StubModel.stream_response`: the word-by-word
partial events carry `{"type": "text", "content": ...}` and the terminal
event carries `{"type": "final", "response": ...}`. -/
inductive StreamEvent where
  | text (content : String)
  | final (response : ResponseRecord)
deriving DecidableEq

/-- The `"type"` field of a yielded event. -/
def StreamEvent.eventType : StreamEvent → String
  | StreamEvent.text _ => "text"
  | StreamEvent.final _ => "final"

/-- The successive values of `current_text` yielded by the word loop of
`StubModel.stream_response`: each word is appended to the accumulator,
followed by a space except after the last word. -/
def streamPartials : List String → String → List String
  | [], _ => []
  | [w], current_text => [current_text ++ w]
  | w :: ws, current_text =>
    (current_text ++ w ++ " ") :: streamPartials ws (current_text ++ w ++ " ")

/-- Method `StubModel.stream_response`, with the yielded event sequence
collected into a list (the artificial `asyncio.sleep` delays have no
observable effect on the sequence). -/
def stream_response (system_instructions : Option String)
    (input : ModelInput) : List StreamEvent :=
  (streamPartials (pySplit (get_response system_instructions input).text) "").map
    StreamEvent.text
    ++ [StreamEvent.final (get_response system_instructions input)]

/-! ## Correctness of the string primitives

`startsWithList`/`containsSubList` are related to Mathlib's prefix and
contiguous-sublist predicates, and substring search is shown to distribute
over a `"\n"`-join whenever the pattern contains no newline (a pattern
occurrence can then never straddle a join boundary). -/

theorem startsWithList_eq_true {p l : List Char} :
    startsWithList p l = true ↔ p <+: l := by
  induction p generalizing l with
  | nil =>
    simp only [startsWithList]
    exact iff_of_true trivial ⟨l, rfl⟩
  | cons a as ih =>
    cases l with
    | nil =>
      simp only [startsWithList, Bool.false_eq_true, false_iff]
      rintro ⟨t, ht⟩
      simp at ht
    | cons b bs =>
      simp only [startsWithList, Bool.and_eq_true, beq_iff_eq, ih]
      rw [List.cons_prefix_cons]

theorem containsSubList_eq_true {p l : List Char} :
    containsSubList p l = true ↔ p <:+: l := by
  induction l with
  | nil =>
    simp only [containsSubList, List.isEmpty_iff]
    constructor
    · rintro rfl; exact ⟨[], [], rfl⟩
    · rintro ⟨s, t, h⟩
      rcases List.append_eq_nil.mp h with ⟨h1, h2⟩
      exact (List.append_eq_nil.mp h1).2
  | cons c cs ih =>
    simp only [containsSubList, Bool.or_eq_true, startsWithList_eq_true, ih]
    exact (List.infix_cons_iff).symm

theorem pre_append_cons {c : Char} {p a b : List Char}
    (hc : c ∉ p) (h : p <+: a ++ c :: b) : p <+: a := by
  induction p generalizing a with
  | nil => exact ⟨a, rfl⟩
  | cons x xs ih =>
    cases a with
    | nil =>
      rw [List.nil_append, List.cons_prefix_cons] at h
      exact absurd (by rw [← h.1]; exact List.mem_cons_self x xs) hc
    | cons y ys =>
      rw [List.cons_append, List.cons_prefix_cons] at h
      rw [List.cons_prefix_cons]
      exact ⟨h.1, ih (fun hm => hc (List.mem_cons_of_mem x hm)) h.2⟩

theorem sub_append_cons {c : Char} {p a b : List Char} (hc : c ∉ p) :
    p <:+: a ++ c :: b ↔ p <:+: a ∨ p <:+: b := by
  constructor
  · intro h
    induction a with
    | nil =>
      rw [List.nil_append] at h
      rcases List.infix_cons_iff.mp h with hp | hi
      · cases p with
        | nil => exact Or.inl ⟨[], [], rfl⟩
        | cons x xs =>
          rw [List.cons_prefix_cons] at hp
          exact absurd (by rw [← hp.1]; exact List.mem_cons_self x xs) hc
      · exact Or.inr hi
    | cons y ys ih =>
      rw [List.cons_append] at h
      rcases List.infix_cons_iff.mp h with hp | hi
      · rw [← List.cons_append] at hp
        obtain ⟨t, ht⟩ := pre_append_cons hc hp
        exact Or.inl ⟨[], t, ht⟩
      · rcases ih hi with h1 | h2
        · obtain ⟨s, t, hst⟩ := h1
          exact Or.inl ⟨y :: s, t, by rw [← hst]; rfl⟩
        · exact Or.inr h2
  · intro h
    rcases h with ⟨s, t, hst⟩ | ⟨s, t, hst⟩
    · exact ⟨s, t ++ c :: b, by rw [← hst]; simp [List.append_assoc]⟩
    · exact ⟨a ++ c :: s, t, by rw [← hst]; simp [List.append_assoc]⟩

theorem containsSubList_append_cons {c : Char} {p a b : List Char} (hc : c ∉ p) :
    containsSubList p (a ++ c :: b)
      = (containsSubList p a || containsSubList p b) := by
  by_cases h : p <:+: a ++ c :: b
  · rw [containsSubList_eq_true.mpr h]
    rcases (sub_append_cons hc).mp h with h2 | h2
    · rw [containsSubList_eq_true.mpr h2, Bool.true_or]
    · rw [containsSubList_eq_true.mpr h2, Bool.or_true]
  · have h1 : containsSubList p (a ++ c :: b) = false :=
      Bool.eq_false_iff.mpr (fun hx => h (containsSubList_eq_true.mp hx))
    have ha : containsSubList p a = false :=
      Bool.eq_false_iff.mpr
        (fun hx => h ((sub_append_cons hc).mpr (Or.inl (containsSubList_eq_true.mp hx))))
    have hb : containsSubList p b = false :=
      Bool.eq_false_iff.mpr
        (fun hx => h ((sub_append_cons hc).mpr (Or.inr (containsSubList_eq_true.mp hx))))
    rw [h1, ha, hb]
    rfl

theorem pyLower_append (a b : String) :
    pyLower (a ++ b) = pyLower a ++ pyLower b := by
  apply String.ext
  simp [pyLower, String.data_append]

theorem joinWith_single (sep x : String) : joinWith sep [x] = x := rfl

theorem joinWith_cons_cons (sep x y : String) (ys : List String) :
    joinWith sep (x :: y :: ys) = x ++ sep ++ joinWith sep (y :: ys) := rfl

theorem pyLower_joinWith (sep : String) (ps : List String) :
    pyLower (joinWith sep ps) = joinWith (pyLower sep) (ps.map pyLower) := by
  induction ps with
  | nil => rfl
  | cons s rest ih =>
    cases rest with
    | nil => rfl
    | cons t r =>
      rw [joinWith_cons_cons, List.map_cons, List.map_cons, joinWith_cons_cons]
      rw [pyLower_append, pyLower_append, ih, List.map_cons]

theorem pyContains_joinWith {pat : String} (hpat : pat ≠ "")
    (hnl : ('\n' : Char) ∉ pat.data) (ps : List String) :
    pyContains (joinWith "\n" ps) pat = ps.any (fun s => pyContains s pat) := by
  induction ps with
  | nil =>
    show containsSubList pat.data [] = false
    have hd : pat.data ≠ [] := fun h => hpat (String.ext h)
    simp only [containsSubList]
    exact Bool.eq_false_iff.mpr (fun hx => hd (List.isEmpty_iff.mp hx))
  | cons s rest ih =>
    cases rest with
    | nil => simp [joinWith_single, List.any_cons, List.any_nil, pyContains]
    | cons t r =>
      rw [joinWith_cons_cons]
      show containsSubList pat.data ((s ++ "\n" ++ joinWith "\n" (t :: r)).data) = _
      rw [String.data_append, String.data_append, List.append_assoc]
      rw [show ("\n" : String).data = ['\n'] from rfl, List.singleton_append]
      rw [containsSubList_append_cons hnl]
      rw [List.any_cons, ← ih]
      rfl

theorem pyContains_append_right {a b pat : String}
    (h : pyContains b pat = true) : pyContains (a ++ b) pat = true := by
  show containsSubList pat.data ((a ++ b).data) = true
  rw [String.data_append, containsSubList_eq_true]
  obtain ⟨u, v, huv⟩ := containsSubList_eq_true.mp h
  exact ⟨a.data ++ u, v, by rw [← huv]; simp [List.append_assoc]⟩

theorem joinWith_nonempty (sep x : String) (xs : List String)
    (hx : x.data ≠ []) : joinWith sep (x :: xs) ≠ "" := by
  cases xs with
  | nil =>
    intro h
    rw [joinWith_single] at h
    exact hx (by rw [h])
  | cons y ys =>
    intro h
    have hd := congrArg String.data h
    rw [joinWith_cons_cons, String.data_append, String.data_append] at hd
    simp only [List.append_eq_nil] at hd
    exact hx hd.1.1

theorem generate_instructions_ne_empty (p : TrainingProfile) :
    generate_instructions p ≠ "" := by
  rw [generate_instructions]
  exact joinWith_nonempty "\n" base_instructions _ (by decide)

theorem pyContains_generate (p : TrainingProfile) (pat : String)
    (hpat : pat ≠ "") (hnl : ('\n' : Char) ∉ pat.data) :
    pyContains (pyLower (generate_instructions p)) pat
      = (instructionParts p).any (fun b => pyContains (pyLower b) pat) := by
  rw [generate_instructions, pyLower_joinWith]
  rw [show pyLower "\n" = "\n" from rfl]
  rw [pyContains_joinWith hpat hnl]
  rw [List.any_map]
  rfl

/-! ## The possible assembled parts

For a profile without custom instructions, every element of
`instructionParts` is drawn from this fixed finite list: the base text, the
two intensity blocks, the four focus blocks, the header and instruction
text of each registered skill domain, and the legendary-principles
section. -/

def allTrainingParts : List String :=
  [base_instructions, legendary_intensity_block, advanced_intensity_block,
   analytical_focus_block, interpersonal_focus_block, creative_focus_block,
   ethical_focus_block]
  ++ SKILL_DOMAINS.map (fun kv => "\n## " ++ kv.2.name ++ "\n")
  ++ SKILL_DOMAINS.map (fun kv => kv.2.instructions)
  ++ ["\n## Legendary Principles\n", "Always embody these legendary principles:"]
  ++ legendary_principles.map (fun pr => "- " ++ pr)

theorem no_sage_in_parts :
    allTrainingParts.all
      (fun b => !(pyContains (pyLower b) "legendary sage")) = true := by decide

theorem no_masterlevel_in_parts :
    allTrainingParts.all
      (fun b => !(pyContains (pyLower b)
        "master-level capabilities across all domains")) = true := by decide

theorem no_anmaster_in_parts :
    allTrainingParts.all
      (fun b => !(pyContains (pyLower b) "analytical master")) = true := by decide

theorem no_exan_in_parts :
    allTrainingParts.all
      (fun b => !(pyContains (pyLower b) "exceptional analytical")) = true := by decide

theorem no_commexp_in_parts :
    allTrainingParts.all
      (fun b => !(pyContains (pyLower b) "communication expert")) = true := by decide

theorem comm_text_has_master_communicator :
    pyContains (pyLower CommunicationSkills.instructions) "master communicator"
      = true := by decide

theorem all_not_contains {L : List String} {pat : String}
    (h : L.all (fun b => !(pyContains (pyLower b) pat)) = true)
    {b : String} (hb : b ∈ L) : pyContains (pyLower b) pat = false := by
  rw [List.all_eq_true] at h
  have h2 := h b hb
  simpa using h2

theorem skill_obj_mem {p : TrainingProfile} {d : SkillDomain}
    (hd : d ∈ p.get_skill_objects) :
    d ∈ SKILL_DOMAINS.map (fun kv => kv.2) := by
  rw [TrainingProfile.get_skill_objects] at hd
  obtain ⟨n, hn, he⟩ := List.mem_filterMap.mp hd
  rw [lookupDomain] at he
  obtain ⟨kv, hkv, h2⟩ := Option.map_eq_some'.mp he
  exact List.mem_map.mpr ⟨kv, List.mem_of_find?_eq_some hkv, h2⟩

theorem parts_sub_allParts (p : TrainingProfile)
    (hc : p.custom_instructions = none) :
    ∀ b ∈ instructionParts p, b ∈ allTrainingParts := by
  have hI : ∀ i, ∀ b ∈ intensityParts i, b ∈ allTrainingParts := by
    intro i b hb
    cases i <;> simp only [intensityParts, List.mem_singleton,
      List.not_mem_nil] at hb <;> first
      | exact absurd hb not_false
      | (subst hb; simp [allTrainingParts])
  have hF : ∀ f, ∀ b ∈ focusParts f, b ∈ allTrainingParts := by
    intro f b hb
    cases f <;> simp only [focusParts, List.mem_singleton,
      List.not_mem_nil] at hb <;> first
      | exact absurd hb not_false
      | (subst hb; simp [allTrainingParts])
  intro b hb
  rw [instructionParts, hc] at hb
  simp only [List.mem_append] at hb
  rcases hb with ((((((h | h) | h) | h) | h) | h) | h)
  · simp only [List.mem_singleton] at h
    subst h
    simp [allTrainingParts]
  · exact hI _ b h
  · exact hF _ b h
  · obtain ⟨s, hs, hbs⟩ := List.mem_flatten.mp h
    obtain ⟨d, hd, rfl⟩ := List.mem_map.mp hs
    obtain ⟨kv, hkv, rfl⟩ := List.mem_map.mp (skill_obj_mem hd)
    simp only [List.mem_cons, List.mem_singleton, List.not_mem_nil,
      or_false] at hbs
    rcases hbs with rfl | rfl
    · have hx : ("\n## " ++ kv.2.name ++ "\n")
          ∈ SKILL_DOMAINS.map (fun kv => "\n## " ++ kv.2.name ++ "\n") :=
        List.mem_map.mpr ⟨kv, hkv, rfl⟩
      simp only [allTrainingParts, List.mem_append]
      tauto
    · have hx : kv.2.instructions
          ∈ SKILL_DOMAINS.map (fun kv => kv.2.instructions) :=
        List.mem_map.mpr ⟨kv, hkv, rfl⟩
      simp only [allTrainingParts, List.mem_append]
      tauto
  · simp only [List.mem_cons, List.mem_singleton, List.not_mem_nil,
      or_false] at h
    rcases h with rfl | rfl <;> simp [allTrainingParts]
  · obtain ⟨pr, hpr, rfl⟩ := List.mem_map.mp h
    have hx : ("- " ++ pr) ∈ legendary_principles.map (fun pr => "- " ++ pr) :=
      List.mem_map.mpr ⟨pr, hpr, rfl⟩
    simp only [allTrainingParts, List.mem_append]
    tauto
  · simp only [customParts, List.not_mem_nil] at h

theorem generate_response_some (s it : String) (hne : s ≠ "") :
    generate_response (some s) it =
      (if pyContains (pyLower s) "legendary sage"
          || pyContains (pyLower s) "master-level capabilities across all domains" then
        resp_legendary_sage
      else if pyContains (pyLower s) "analytical master"
          || pyContains (pyLower s) "exceptional analytical" then
        resp_analytical_master
      else if pyContains (pyLower s) "communication expert"
          || pyContains (pyLower s) "master communicator" then
        resp_communication_expert
      else if pyContains (pyLower s) "innovation genius"
          || pyContains (pyLower s) "creative problem-solver" then
        resp_innovation_genius
      else if pyContains (pyLower s) "legendary"
          && pyContains (pyLower s) "training" then
        resp_generic_legendary
      else resp_default) := by
  simp only [generate_response]
  rw [if_neg (by simp [hne])]

/-- Any profile without custom instructions whose resolved skill modules
include the communication module classifies to the `communication_expert`
canned response: rules 1 and 2 cannot fire on any emitted block, while the
communication module text supplies `"master communicator"` for rule 3. -/
theorem comm_profile_classification (p : TrainingProfile) (it : String)
    (hc : p.custom_instructions = none)
    (hm : CommunicationSkills ∈ p.get_skill_objects) :
    generate_response (some (generate_instructions p)) it
      = resp_communication_expert := by
  have hsub := parts_sub_allParts p hc
  have key : ∀ pat : String, pat ≠ "" → ('\n' : Char) ∉ pat.data →
      allTrainingParts.all (fun b => !(pyContains (pyLower b) pat)) = true →
      pyContains (pyLower (generate_instructions p)) pat = false := by
    intro pat hp1 hp2 hall
    rw [pyContains_generate p _ hp1 hp2]
    refine Bool.eq_false_iff.mpr (fun hany => ?_)
    obtain ⟨x, hx, hpx⟩ := List.any_eq_true.mp hany
    rw [all_not_contains hall (hsub x hx)] at hpx
    exact Bool.false_ne_true hpx
  have h1 := key "legendary sage" (by decide) (by decide) no_sage_in_parts
  have h2 := key "master-level capabilities across all domains" (by decide)
    (by decide) no_masterlevel_in_parts
  have h3 := key "analytical master" (by decide) (by decide) no_anmaster_in_parts
  have h4 := key "exceptional analytical" (by decide) (by decide) no_exan_in_parts
  have h5 : pyContains (pyLower (generate_instructions p)) "master communicator"
      = true := by
    rw [pyContains_generate p _ (by decide) (by decide)]
    refine List.any_eq_true.mpr ⟨CommunicationSkills.instructions, ?_,
      comm_text_has_master_communicator⟩
    rw [instructionParts]
    simp only [List.mem_append]
    refine Or.inl (Or.inl (Or.inl (Or.inr ?_)))
    refine List.mem_flatten.mpr
      ⟨["\n## " ++ CommunicationSkills.name ++ "\n", CommunicationSkills.instructions],
       List.mem_map.mpr ⟨CommunicationSkills, hm, rfl⟩, ?_⟩
    simp
  rw [generate_response_some _ it (generate_instructions_ne_empty p)]
  rw [h1, h2, h3, h4, h5]
  simp

/-! ## Classification of the assembled `analytical_master` profile

None of the classification substrings occurs in any part the assembler
emits for `analytical_master` (the profile name and description are never
emitted), so the engine falls through to the default response. -/

def c1_pats : List String :=
  ["legendary sage", "master-level capabilities across all domains",
   "analytical master", "exceptional analytical",
   "communication expert", "master communicator",
   "innovation genius", "creative problem-solver", "training"]

theorem no_c1_pats_in_am_parts :
    (instructionParts analytical_master_profile).all
      (fun b => c1_pats.all (fun pat => !(pyContains (pyLower b) pat))) = true := by
  decide

theorem all_all_not_contains {L P : List String} {b pat : String}
    (h : L.all (fun b => P.all (fun pat => !(pyContains (pyLower b) pat))) = true)
    (hb : b ∈ L) (hp : pat ∈ P) : pyContains (pyLower b) pat = false := by
  rw [List.all_eq_true] at h
  have h2 := h b hb
  rw [List.all_eq_true] at h2
  simpa using h2 pat hp

theorem analytical_master_classifies_default (it : String) :
    generate_response (some (generate_instructions analytical_master_profile)) it
      = resp_default := by
  have key : ∀ pat : String, pat ∈ c1_pats → pat ≠ "" →
      ('\n' : Char) ∉ pat.data →
      pyContains (pyLower (generate_instructions analytical_master_profile)) pat
        = false := by
    intro pat hmem hp1 hp2
    rw [pyContains_generate _ _ hp1 hp2]
    refine Bool.eq_false_iff.mpr (fun hany => ?_)
    obtain ⟨x, hx, hpx⟩ := List.any_eq_true.mp hany
    rw [all_all_not_contains no_c1_pats_in_am_parts hx hmem] at hpx
    exact Bool.false_ne_true hpx
  have h1 := key "legendary sage" (by decide) (by decide) (by decide)
  have h2 := key "master-level capabilities across all domains" (by decide)
    (by decide) (by decide)
  have h3 := key "analytical master" (by decide) (by decide) (by decide)
  have h4 := key "exceptional analytical" (by decide) (by decide) (by decide)
  have h5 := key "communication expert" (by decide) (by decide) (by decide)
  have h6 := key "master communicator" (by decide) (by decide) (by decide)
  have h7 := key "innovation genius" (by decide) (by decide) (by decide)
  have h8 := key "creative problem-solver" (by decide) (by decide) (by decide)
  have h9 := key "training" (by decide) (by decide) (by decide)
  rw [generate_response_some _ it (generate_instructions_ne_empty _)]
  rw [h1, h2, h3, h4, h5, h6, h7, h8, h9]
  simp

/-! ## Structure of the streamed event sequence -/

theorem string_empty_append (s : String) : "" ++ s = s := by
  apply String.ext
  simp [String.data_append]

theorem streamPartials_length (ws : List String) (acc : String) :
    (streamPartials ws acc).length = ws.length := by
  induction ws generalizing acc with
  | nil => rfl
  | cons w rest ih =>
    cases rest with
    | nil => rfl
    | cons t r =>
      show ((acc ++ w ++ " ") :: streamPartials (t :: r) (acc ++ w ++ " ")).length = _
      simp [ih]

theorem joinWith_cons_of_ne (sep x : String) {l : List String} (hl : l ≠ []) :
    joinWith sep (x :: l) = x ++ sep ++ joinWith sep l := by
  cases l with
  | nil => exact absurd rfl hl
  | cons y ys => rfl

theorem streamPartials_getElem (ws : List String) (acc : String) (i : Nat)
    (h : i < ws.length) :
    (streamPartials ws acc)[i]? =
      some (acc ++ joinWith " " (ws.take (i+1))
        ++ (if i < ws.length - 1 then " " else "")) := by
  induction ws generalizing acc i with
  | nil => exact absurd h (by simp)
  | cons w rest ih =>
    cases rest with
    | nil =>
      have h0 : i = 0 := Nat.lt_one_iff.mp (by simpa using h)
      subst h0
      show ([acc ++ w])[0]? = _
      simp [joinWith_single]
    | cons t r =>
      cases i with
      | zero =>
        show ((acc ++ w ++ " ") :: streamPartials (t :: r) (acc ++ w ++ " "))[0]? = _
        rw [List.getElem?_cons_zero]
        rw [if_pos (by simp)]
        rfl
      | succ j =>
        have hj : j < (t :: r).length := by
          simpa [Nat.succ_lt_succ_iff] using h
        show ((acc ++ w ++ " ") :: streamPartials (t :: r) (acc ++ w ++ " "))[j+1]? = _
        rw [List.getElem?_cons_succ]
        rw [ih _ _ hj]
        congr 1
        rw [show (w :: t :: r).take (j+1+1) = w :: (t :: r).take (j+1) from rfl]
        rw [joinWith_cons_of_ne " " w (by simp)]
        have hiff : (j < (t :: r).length - 1) ↔ (j+1 < (w :: t :: r).length - 1) := by
          simp only [List.length_cons]
          omega
        rw [if_congr hiff rfl rfl]
        simp [String.append_assoc]

/-! ## Claim theorems -/

/-- C1 (amended): assembling the canonical `analytical_master` profile with
the instruction assembler and classifying the result with the response
engine selects the `default` canned response, not the `analytical_master`
one: the substring "exceptional analytical" occurs only in the profile
description, which the assembler never emits. -/
theorem analytical_master_end_to_end_default (it : String) :
    get_training_profile "analytical_master" = Except.ok analytical_master_profile
    ∧ generate_response (some (generate_instructions analytical_master_profile)) it
        = resp_default :=
  ⟨rfl, analytical_master_classifies_default it⟩

/-- C1 counterexample: the substring "exceptional analytical" does not occur
in the assembled `analytical_master` instructions, and classifying that text
does not select the `analytical_master` canned response. -/
theorem analytical_master_linkage_counterexample :
    pyContains (pyLower (generate_instructions analytical_master_profile))
      "exceptional analytical" = false
    ∧ generate_response (some (generate_instructions analytical_master_profile))
        "How will AI affect employment?" ≠ resp_analytical_master := by
  constructor
  · rw [pyContains_generate _ _ (by decide) (by decide)]
    refine Bool.eq_false_iff.mpr (fun hany => ?_)
    obtain ⟨x, hx, hpx⟩ := List.any_eq_true.mp hany
    rw [all_all_not_contains no_c1_pats_in_am_parts hx (by decide)] at hpx
    exact Bool.false_ne_true hpx
  · rw [analytical_master_classifies_default]
    decide

/-- C2 (amended): for any instructions and input the streamed sequence has
exactly N+1 events for the N words of the response text: the i-th event is
a partial tagged `"text"` (not `"partial"`) carrying in its `content` field
the first i+1 words joined by single spaces, with a trailing space on every
partial except the last, and the sequence ends with exactly one `"final"`
event embedding the same record `get_response` returns for the same
arguments. -/
theorem stream_event_sequence_spec (si : Option String) (inp : ModelInput) :
    (stream_response si inp).length
        = (pySplit (get_response si inp).text).length + 1
    ∧ (stream_response si inp).getLast?
        = some (StreamEvent.final (get_response si inp))
    ∧ ∀ i, i < (pySplit (get_response si inp).text).length →
        (stream_response si inp)[i]?
          = some (StreamEvent.text
              (joinWith " " ((pySplit (get_response si inp).text).take (i+1))
                ++ (if i < (pySplit (get_response si inp).text).length - 1
                    then " " else ""))) := by
  refine ⟨?_, ?_, ?_⟩
  · show ((streamPartials _ "").map StreamEvent.text ++ [_]).length = _
    simp [streamPartials_length]
  · show ((streamPartials _ "").map StreamEvent.text ++ [_]).getLast? = _
    exact List.getLast?_concat _
  · intro i hi
    show ((streamPartials (pySplit (get_response si inp).text) "").map
        StreamEvent.text ++ [_])[i]? = _
    rw [List.getElem?_append_left (by simpa [streamPartials_length] using hi)]
    rw [List.getElem?_map]
    rw [streamPartials_getElem _ _ i hi]
    simp [string_empty_append]

/-- Witness for C2 at concrete arguments: the first streamed event of the
default response carries the first word followed by a space. -/
theorem stream_event_sequence_spec_witness :
    0 < (pySplit (get_response none (ModelInput.str "x")).text).length
    ∧ (stream_response none (ModelInput.str "x"))[0]?
        = some (StreamEvent.text
            (joinWith " "
              ((pySplit (get_response none (ModelInput.str "x")).text).take 1)
              ++ (if 0 < (pySplit
                    (get_response none (ModelInput.str "x")).text).length - 1
                  then " " else ""))) :=
  ⟨by decide,
   (stream_event_sequence_spec none (ModelInput.str "x")).2.2 0 (by decide)⟩

/-- C2 counterexample: the partial events are tagged `"text"`, not
`"partial"` as the claim states. -/
theorem stream_event_shape_counterexample :
    (stream_response none (ModelInput.str "hi")).head?.map StreamEvent.eventType
      = some "text"
    ∧ "text" ≠ "partial" := by
  constructor
  · decide
  · decide

/-- C3: any instruction string whose lower-cased form contains both
"legendary sage" and "communication expert" classifies to the
`legendary_sage` canned response — rule 1 precedes rule 3, so the earliest
matching rule of the fixed priority order always wins. -/
theorem classification_priority_legendary_sage (s it : String)
    (h1 : pyContains (pyLower s) "legendary sage" = true)
    (h2 : pyContains (pyLower s) "communication expert" = true) :
    generate_response (some s) it = resp_legendary_sage := by
  have hne : s ≠ "" := by
    rintro rfl
    revert h1
    decide
  rw [generate_response_some _ it hne, h1]
  simp

/-- Witness for C3 at a concrete instruction string. -/
theorem classification_priority_witness :
    pyContains (pyLower "You are a Legendary Sage and Communication Expert")
      "legendary sage" = true
    ∧ pyContains (pyLower "You are a Legendary Sage and Communication Expert")
        "communication expert" = true
    ∧ generate_response
        (some "You are a Legendary Sage and Communication Expert") "q"
        = resp_legendary_sage :=
  ⟨by decide, by decide,
   classification_priority_legendary_sage _ "q" (by decide) (by decide)⟩

/-- C4: the response engine is total (the embedding returns a response for
every input shape); absent or empty system instructions yield the `default`
canned response, and any instruction string matching none of the six rules
also falls through to the `default` response. -/
theorem response_engine_default_fallback (it s : String)
    (h1 : pyContains (pyLower s) "legendary sage" = false)
    (h2 : pyContains (pyLower s) "master-level capabilities across all domains"
          = false)
    (h3 : pyContains (pyLower s) "analytical master" = false)
    (h4 : pyContains (pyLower s) "exceptional analytical" = false)
    (h5 : pyContains (pyLower s) "communication expert" = false)
    (h6 : pyContains (pyLower s) "master communicator" = false)
    (h7 : pyContains (pyLower s) "innovation genius" = false)
    (h8 : pyContains (pyLower s) "creative problem-solver" = false)
    (h9 : (pyContains (pyLower s) "legendary"
           && pyContains (pyLower s) "training") = false) :
    generate_response none it = resp_default
    ∧ generate_response (some "") it = resp_default
    ∧ generate_response (some s) it = resp_default := by
  refine ⟨rfl, rfl, ?_⟩
  by_cases hs : s = ""
  · subst hs
    rfl
  · rw [generate_response_some _ it hs, h1, h2, h3, h4, h5, h6, h7, h8, h9]
    simp

/-- Witness for C4 at a concrete unmatched instruction string. -/
theorem response_engine_default_fallback_witness :
    pyContains (pyLower "hello there") "legendary sage" = false
    ∧ generate_response none "anything" = resp_default
    ∧ generate_response (some "") "anything" = resp_default
    ∧ generate_response (some "hello there") "anything" = resp_default := by
  refine ⟨by decide, ?_⟩
  exact response_engine_default_fallback "anything" "hello there"
    (by decide) (by decide) (by decide) (by decide) (by decide) (by decide)
    (by decide) (by decide) (by decide)

/-- C5: `apply_legendary_training` replaces the agent's instructions with
its previous instructions (when truthy) joined to the assembled
instructions by a blank line (just the assembled instructions otherwise),
never overwrites an existing settings value, installs
`create_enhanced_model_settings` exactly when the agent has no settings,
and changes no other agent field — the returned value is the input agent
record updated only at those two fields. -/
theorem apply_training_frame_spec (env : Bool) (a : Agent)
    (p : TrainingProfile) :
    (apply_legendary_training env a p).name = a.name
    ∧ (apply_legendary_training env a p).model = a.model
    ∧ ((a.instructions = none ∨ a.instructions = some "") →
        (apply_legendary_training env a p).instructions
          = some (generate_instructions p))
    ∧ (∀ i, a.instructions = some i → i ≠ "" →
        (apply_legendary_training env a p).instructions
          = some (i ++ "\n\n" ++ generate_instructions p))
    ∧ (a.model_settings ≠ none →
        (apply_legendary_training env a p).model_settings = a.model_settings)
    ∧ (a.model_settings = none →
        (apply_legendary_training env a p).model_settings
          = create_enhanced_model_settings env p) := by
  obtain ⟨n, oi, oms, m⟩ := a
  refine ⟨?_, ?_, ?_, ?_, ?_, ?_⟩
  · rcases oms with _ | ms <;>
      rcases hE : create_enhanced_model_settings env p with _ | es <;>
      simp [apply_legendary_training, hE]
  · rcases oms with _ | ms <;>
      rcases hE : create_enhanced_model_settings env p with _ | es <;>
      simp [apply_legendary_training, hE]
  · intro h
    rcases h with h | h <;> simp only at h <;> subst h <;>
      rcases oms with _ | ms <;>
      rcases hE : create_enhanced_model_settings env p with _ | es <;>
      simp [apply_legendary_training, hE]
  · intro i hoi hne
    simp only at hoi
    subst hoi
    rcases oms with _ | ms <;>
      rcases hE : create_enhanced_model_settings env p with _ | es <;>
      simp [apply_legendary_training, hE, hne]
  · intro hms
    rcases oms with _ | ms
    · exact absurd rfl hms
    · rcases hE : create_enhanced_model_settings env p with _ | es <;>
        simp [apply_legendary_training, hE]
  · intro hms
    simp only at hms
    subst hms
    rcases hE : create_enhanced_model_settings env p with _ | es <;>
      simp [apply_legendary_training, hE]

/-- Witness for C5 at a concrete agent without instructions or settings. -/
theorem apply_training_frame_spec_witness :
    (apply_legendary_training true { name := "a", model := "m" }
        balanced_expert_profile).instructions
      = some (generate_instructions balanced_expert_profile)
    ∧ (apply_legendary_training true { name := "a", model := "m" }
        balanced_expert_profile).model_settings
      = create_enhanced_model_settings true balanced_expert_profile :=
  ⟨(apply_training_frame_spec true _ _).2.2.1 (Or.inl rfl),
   (apply_training_frame_spec true _ _).2.2.2.2.2 rfl⟩

/-- C6: looking up any name outside the six canonical ones fails with the
`Unknown profile` error whose message enumerates all six canonical names,
and each of the six canonical names resolves to its fully-populated
profile. -/
theorem get_training_profile_spec :
    (∀ n, n ∉ trainingProfiles.map (fun kv => kv.1) →
       get_training_profile n
         = Except.error ("Unknown profile \x27" ++ n
             ++ "\x27. Available profiles: "
             ++ joinWith ", " (trainingProfiles.map (fun kv => kv.1)))
       ∧ ∀ c ∈ trainingProfiles.map (fun kv => kv.1),
           pyContains ("Unknown profile \x27" ++ n
             ++ "\x27. Available profiles: "
             ++ joinWith ", " (trainingProfiles.map (fun kv => kv.1))) c = true)
    ∧ get_training_profile "legendary_sage" = Except.ok legendary_sage_profile
    ∧ get_training_profile "analytical_master"
        = Except.ok analytical_master_profile
    ∧ get_training_profile "communication_expert"
        = Except.ok communication_expert_profile
    ∧ get_training_profile "innovation_genius"
        = Except.ok innovation_genius_profile
    ∧ get_training_profile "ethical_leader" = Except.ok ethical_leader_profile
    ∧ get_training_profile "balanced_expert"
        = Except.ok balanced_expert_profile := by
  refine ⟨?_, rfl, rfl, rfl, rfl, rfl, rfl⟩
  intro n hn
  have hfind : trainingProfiles.find? (fun kv => kv.1 == n) = none := by
    rw [List.find?_eq_none]
    intro kv hkv hbeq
    exact hn (List.mem_map.mpr ⟨kv, hkv, beq_iff_eq.mp hbeq⟩)
  constructor
  · rw [get_training_profile, hfind]
  · intro c hc
    apply pyContains_append_right
    simp only [trainingProfiles, List.map_cons, List.map_nil, List.mem_cons,
      List.not_mem_nil, or_false] at hc
    rcases hc with rfl | rfl | rfl | rfl | rfl | rfl <;> decide

/-- Witness for C6 at the concrete unknown name `not_a_real_profile`. -/
theorem get_training_profile_spec_witness :
    get_training_profile "not_a_real_profile"
      = Except.error ("Unknown profile \x27" ++ "not_a_real_profile"
          ++ "\x27. Available profiles: "
          ++ joinWith ", " (trainingProfiles.map (fun kv => kv.1)))
    ∧ pyContains ("Unknown profile \x27" ++ "not_a_real_profile"
          ++ "\x27. Available profiles: "
          ++ joinWith ", " (trainingProfiles.map (fun kv => kv.1)))
        "balanced_expert" = true :=
  ⟨(get_training_profile_spec.1 "not_a_real_profile" (by decide)).1,
   (get_training_profile_spec.1 "not_a_real_profile" (by decide)).2
     "balanced_expert" (by decide)⟩

/-- C7: for every call the usage counts are the whitespace token counts of
the lower-cased user input and of the selected response text, the total is
their sum, and the request count is always 1; at user input "one two three"
the input count is 3 and the total is 3 plus the output count. -/
theorem token_accounting_spec (si : Option String) (inp : ModelInput) :
    (get_response si inp).input_tokens
        = (pySplit (extract_input_text inp)).length
    ∧ (∀ s, (get_response si (ModelInput.str s)).input_tokens
        = (pySplit (pyLower s)).length)
    ∧ (get_response si inp).output_tokens
        = (pySplit (get_response si inp).text).length
    ∧ (get_response si inp).total_tokens
        = (get_response si inp).input_tokens
          + (get_response si inp).output_tokens
    ∧ (get_response si inp).requests = 1
    ∧ (get_response si (ModelInput.str "one two three")).input_tokens = 3
    ∧ (get_response si (ModelInput.str "one two three")).total_tokens
        = 3 + (get_response si (ModelInput.str "one two three")).output_tokens :=
  ⟨rfl, fun _ => rfl, rfl, rfl, rfl, rfl, rfl⟩

/-- C8: the instruction assembler is a pure function of the profile value
(the embedding is purely functional, mirroring the absence of I/O,
randomness or mutable state in the Python code): assembling the same
profile twice yields byte-identical strings, and equal profile values
assemble to equal strings. -/
theorem assembler_deterministic (p : TrainingProfile) :
    generate_instructions p = generate_instructions p
    ∧ ∀ q, p = q → generate_instructions p = generate_instructions q :=
  ⟨rfl, fun _ h => congrArg _ h⟩

/-- Witness for C8 at a concrete profile. -/
theorem assembler_deterministic_witness :
    generate_instructions balanced_expert_profile
      = generate_instructions balanced_expert_profile :=
  (assembler_deterministic balanced_expert_profile).2 balanced_expert_profile rfl

/-- C9: skill resolution silently drops unknown names: the resolved list is
never longer than the name list, every resolved module comes from a name
of the profile resolved through the registry, and a profile holding one
valid and one invalid name resolves to exactly one module. -/
theorem skill_resolution_drops_unknown :
    (∀ p : TrainingProfile,
       p.get_skill_objects.length ≤ p.skill_domains.length
       ∧ ∀ d ∈ p.get_skill_objects,
           ∃ n ∈ p.skill_domains, lookupDomain n = some d)
    ∧ (TrainingProfile.get_skill_objects
        { name := "Mixed", description := "one valid and one invalid name",
          skill_domains := ["problem_solving", "not_a_real_skill"] }).length
        = 1 := by
  constructor
  · intro p
    constructor
    · exact List.length_filterMap_le _ _
    · intro d hd
      obtain ⟨n, hn, he⟩ := List.mem_filterMap.mp hd
      exact ⟨n, hn, he⟩
  · rfl

/-- Witness for C9 at the concrete mixed profile. -/
theorem skill_resolution_drops_unknown_witness :
    ({ name := "Mixed", description := "one valid and one invalid name",
       skill_domains := ["problem_solving", "not_a_real_skill"] }
        : TrainingProfile).get_skill_objects.length ≤ 2
    ∧ ∃ n ∈ ["problem_solving", "not_a_real_skill"],
        lookupDomain n = some ProblemSolving :=
  ⟨(skill_resolution_drops_unknown.1
      { name := "Mixed", description := "one valid and one invalid name",
        skill_domains := ["problem_solving", "not_a_real_skill"] }).1,
   (skill_resolution_drops_unknown.1
      { name := "Mixed", description := "one valid and one invalid name",
        skill_domains := ["problem_solving", "not_a_real_skill"] }).2
     ProblemSolving (by decide)⟩

/-- C10: every profile with no custom instructions whose resolved modules
include the communication module classifies to the `communication_expert`
canned response: the communication instruction text supplies
"master communicator" for rule 3, while none of the higher-priority
signature substrings occurs in any block the assembler can emit (profile
name and description are never emitted). -/
theorem communication_module_classification :
    (∀ (p : TrainingProfile) (it : String), p.custom_instructions = none →
        CommunicationSkills ∈ p.get_skill_objects →
        generate_response (some (generate_instructions p)) it
          = resp_communication_expert)
    ∧ pyContains (pyLower CommunicationSkills.instructions)
        "master communicator" = true
    ∧ allTrainingParts.all
        (fun b => !(pyContains (pyLower b) "legendary sage")) = true
    ∧ allTrainingParts.all
        (fun b => !(pyContains (pyLower b)
          "master-level capabilities across all domains")) = true
    ∧ allTrainingParts.all
        (fun b => !(pyContains (pyLower b) "analytical master")) = true
    ∧ allTrainingParts.all
        (fun b => !(pyContains (pyLower b) "exceptional analytical")) = true
    ∧ allTrainingParts.all
        (fun b => !(pyContains (pyLower b) "communication expert")) = true :=
  ⟨comm_profile_classification, comm_text_has_master_communicator,
   no_sage_in_parts, no_masterlevel_in_parts, no_anmaster_in_parts,
   no_exan_in_parts, no_commexp_in_parts⟩

/-- Witness for C10 at the canonical `legendary_sage` profile, whose skill
set resolves all seven modules including the communication module. -/
theorem communication_module_classification_witness :
    legendary_sage_profile.custom_instructions = none
    ∧ CommunicationSkills ∈ legendary_sage_profile.get_skill_objects
    ∧ generate_response (some (generate_instructions legendary_sage_profile)) "q"
        = resp_communication_expert :=
  ⟨rfl, by decide,
   communication_module_classification.1 legendary_sage_profile "q" rfl
     (by decide)⟩
